import Mathlib

/-!
Shallow embedding of the NaCCER proposal-evaluation app (`src/app.py`).

Text is modelled as `String`; character-level processing (the Python
`str.lower`, substring tests, tokenisation) is carried out on the list of
Unicode code points of the string (`codes`).  Monetary amounts and the
keyword scores are exact rationals; the tf-idf novelty pipeline, which in
the source runs on floating-point vectors with logarithmic idf weights, is
modelled over the reals.  The Python `round(x, 2)` is modelled as
`round (x * 100) / 100`.
-/

/-- Code points of a string, the form in which all character processing is
done here. -/
def codes (s : String) : List Nat := s.data.map Char.toNat

/-- Full-case lower mapping of one code point, the model of `str.lower`:
ASCII letters A-Z map to a-z; the dotted capital I (U+0130) lowers to i
followed by a combining dot above (U+0307) and the Kelvin sign (U+212A)
lowers to k, as in Python. The mapping is complete on ASCII and on the
code points appearing in this development; remaining non-ASCII code
points are left unchanged. -/
def lowerChars (n : Nat) : List Nat :=
  if 65 ≤ n ∧ n ≤ 90 then [n + 32]
  else if n = 304 then [105, 775]
  else if n = 8490 then [107]
  else [n]

/-- Full-case upper mapping of one code point, the model of `str.upper`:
ASCII letters a-z map to A-Z; the sharp s ß (U+00DF) upper-cases to the
two letters SS, as in Python. The mapping is complete on ASCII and on
the code points appearing in this development; remaining non-ASCII code
points are left unchanged. -/
def upperChars (n : Nat) : List Nat :=
  if 97 ≤ n ∧ n ≤ 122 then [n - 32]
  else if n = 223 then [83, 83]
  else [n]

/-- `text.lower()` as a list of code points. -/
def lowerCodes (s : String) : List Nat := (codes s).flatMap lowerChars

/-- `text.upper()` as a list of code points. -/
def upperCodes (s : String) : List Nat := (codes s).flatMap upperChars

/-- Whether `pre` is a prefix of `l` (decision procedure used by `hasSub`). -/
def isPrefixList : List Nat → List Nat → Bool
  | [], _ => true
  | _ :: _, [] => false
  | a :: as, b :: bs => a == b && isPrefixList as bs

/-- The Python substring test `needle in hay` on code-point lists. -/
def hasSub (needle : List Nat) : List Nat → Bool
  | [] => needle.isEmpty
  | b :: bs => isPrefixList needle (b :: bs) || hasSub needle bs

/-- Number of keywords of `keys` occurring as substrings of the
lower-cased text, the `sum(kw in text.lower() for kw in keywords)` of the
source. -/
def matchCount (keys : List String) (text : String) : Nat :=
  keys.countP (fun kw => hasSub (codes kw) (lowerCodes text))

/-- The Python `round(x, 2)` on exact rationals. -/
def round2 (x : ℚ) : ℚ :=
  (round (x * 100) : ℤ) / 100

/-- The Python `round(x, 2)` on reals (used by the novelty pipeline). -/
noncomputable def round2R (x : ℝ) : ℝ :=
  (round (x * 100) : ℤ) / 100

/-- `min_score` of the source: floors a score at `10`. -/
def min_score (val : ℚ) : ℚ :=
  max val 10

/-- `min_score` of the source, real-valued version for the novelty score. -/
noncomputable def min_scoreR (val : ℝ) : ℝ :=
  max val 10

def relevance_keywords : List String :=
  ["coal mining", "safety", "environmental sustainability",
   "energy efficiency", "automation", "clean coal"]

/-- `score_relevance` of the source. -/
def score_relevance (text : String) : ℚ :=
  min_score (round2 (100 * (matchCount relevance_keywords text : ℚ) /
    relevance_keywords.length))

def feasibility_keywords : List String :=
  ["objective", "methodology", "timeline", "resources", "expertise",
   "partnership"]

/-- `score_technical_feasibility` of the source. -/
def score_technical_feasibility (text : String) : ℚ :=
  min_score (round2 (100 * (matchCount feasibility_keywords text : ℚ) /
    feasibility_keywords.length))

def impact_keywords : List String :=
  ["efficiency", "safety", "environment", "emissions", "clean energy"]

/-- `score_impact_potential` of the source. -/
def score_impact_potential (text : String) : ℚ :=
  min_score (round2 (100 * (matchCount impact_keywords text : ℚ) /
    impact_keywords.length))

def institutional_keywords : List String :=
  ["track record", "expertise", "facility", "experience"]

/-- `score_institutional_capability` of the source. -/
def score_institutional_capability (text : String) : ℚ :=
  min_score (round2 (100 * (matchCount institutional_keywords text : ℚ) /
    institutional_keywords.length))

def compliance_keywords : List String :=
  ["forms", "annexures", "financial details", "approval", "ethical",
   "regulatory"]

/-- `score_compliance_and_completeness` of the source. -/
def score_compliance_and_completeness (text : String) : ℚ :=
  min_score (round2 (100 * (matchCount compliance_keywords text : ℚ) /
    compliance_keywords.length))

/-- A budget table, reduced to its `Amount` column in row order (row 0 is
the first milestone). -/
abbrev Budget := List ℚ

/-- `score_financial_viability` of the source: returns the score and the
ordered list of flag messages. -/
def score_financial_viability (budget : Budget) : ℚ × List String :=
  let total : ℚ := budget.sum
  let max_total : ℚ := 2000000
  let milestone_limit : ℚ := 0.4
  let first_milestone : ℚ := budget.headD 0
  let issues : List String :=
    (if total > max_total then ["Budget exceeds max INR 20 lakhs"] else []) ++
    (if total > 0 ∧ first_milestone / total > milestone_limit then
      ["First milestone > 40% of total budget"] else [])
  let score : ℚ := if issues.isEmpty then 100 else 50
  (min_score score, issues)

/-! ## Novelty: the tf-idf / cosine-similarity pipeline

`TfidfVectorizer().fit_transform(docs)` with its default settings:
lower-casing, token pattern `\b\w\w+\b` (maximal word-character runs of
length at least two), smooth idf `ln((1+n)/(1+df)) + 1`, and l2-normalised
rows.  `sims = tfidf[-1] @ tfidf[:-1].T` is then the list of cosine
similarities between the candidate row and each benchmark row. -/

def BENCHMARKS : List String :=
  ["Optimized coal mining using IoT sensors.",
   "Advanced rare earth extraction from coal ash.",
   "AI techniques for predictive maintenance in mines."]

/-- Word characters of the token pattern `\w` (ASCII letters, digits,
underscore). -/
def isWordCode (n : Nat) : Bool :=
  (48 ≤ n && n ≤ 57) || (97 ≤ n && n ≤ 122) || (65 ≤ n && n ≤ 90) || n == 95

/-- Splits a code-point list into its maximal word-character runs; `acc`
holds the current run reversed. -/
def wordRunsAux : List Nat → List Nat → List (List Nat)
  | acc, [] => if acc.isEmpty then [] else [acc.reverse]
  | acc, c :: cs =>
    if isWordCode c then wordRunsAux (c :: acc) cs
    else if acc.isEmpty then wordRunsAux [] cs
    else acc.reverse :: wordRunsAux [] cs

/-- The vectorizer tokens of a document: maximal word-character runs of
length at least 2 in the lower-cased text. -/
def tokens (s : String) : List (List Nat) :=
  (wordRunsAux [] (lowerCodes s)).filter (fun t => 2 ≤ t.length)

/-- Vocabulary of a corpus. -/
def vocab (docs : List String) : Finset (List Nat) :=
  (docs.flatMap tokens).toFinset

/-- Document frequency of a term in a corpus. -/
def df (docs : List String) (w : List Nat) : Nat :=
  docs.countP (fun d => (tokens d).contains w)

/-- Smooth idf weight of sklearn: `ln((1+n)/(1+df)) + 1`. -/
noncomputable def idf (docs : List String) (w : List Nat) : ℝ :=
  Real.log ((1 + docs.length) / (1 + df docs w)) + 1

/-- Raw tf-idf entry of document `d` at term `w`. -/
noncomputable def tfidf (docs : List String) (d : String) (w : List Nat) : ℝ :=
  ((tokens d).count w : ℝ) * idf docs w

/-- l2 norm of the raw tf-idf row of `d`. -/
noncomputable def tfidfNorm (docs : List String) (d : String) : ℝ :=
  Real.sqrt (∑ w ∈ vocab docs, tfidf docs d w ^ 2)

/-- l2-normalised tf-idf row (an all-zero row is left as zero). -/
noncomputable def tfidfUnit (docs : List String) (d : String) (w : List Nat) : ℝ :=
  if tfidfNorm docs d = 0 then 0 else tfidf docs d w / tfidfNorm docs d

/-- Cosine similarity of two documents: the dot product of their
l2-normalised tf-idf rows. -/
noncomputable def cosSim (docs : List String) (a b : String) : ℝ :=
  ∑ w ∈ vocab docs, tfidfUnit docs a w * tfidfUnit docs b w

/-- `np.max` over a list of reals. -/
noncomputable def listMax : List ℝ → ℝ
  | [] => 0
  | x :: xs => xs.foldl max x

/-- `score_novelty` of the source. -/
noncomputable def score_novelty (text : String) : ℝ :=
  let docs := BENCHMARKS ++ [text]
  let sims := BENCHMARKS.map (fun b => cosSim docs text b)
  min_scoreR (round2R ((1 - listMax sims) * 100))

/-! ## Aggregator and session model -/

/-- The dict returned by `compute_weighted_score`. -/
structure ScoreRecord where
  relevance : ℝ
  novelty : ℝ
  feasibility : ℝ
  financial : ℝ
  impact : ℝ
  institutional : ℝ
  compliance : ℝ
  overall : ℝ
  status : String
  reasons : List String

/-- `compute_weighted_score` of the source. -/
noncomputable def compute_weighted_score (text : String) (budget : Budget) :
    ScoreRecord :=
  let r1 : ℝ := ((score_relevance text : ℚ) : ℝ)
  let r2 : ℝ := score_novelty text
  let r3 : ℝ := ((score_technical_feasibility text : ℚ) : ℝ)
  let fin := score_financial_viability budget
  let r4 : ℝ := ((fin.1 : ℚ) : ℝ)
  let r5 : ℝ := ((score_impact_potential text : ℚ) : ℝ)
  let r6 : ℝ := ((score_institutional_capability text : ℚ) : ℝ)
  let r7 : ℝ := ((score_compliance_and_completeness text : ℚ) : ℝ)
  let score : ℝ :=
    round2R (r1 * 0.2 + r2 * 0.2 + r3 * 0.2 + r4 * 0.15 + r5 * 0.15 +
      r6 * 0.05 + r7 * 0.05)
  if 70 ≤ score then
    ⟨r1, r2, r3, r4, r5, r6, r7, score, "Accepted", []⟩
  else if 50 ≤ score then
    ⟨r1, r2, r3, r4, r5, r6, r7, score, "Conditional Acceptance (Revision Needed)",
      if fin.2.isEmpty then ["Requires revision"] else fin.2⟩
  else
    ⟨r1, r2, r3, r4, r5, r6, r7, score, "Rejected",
      if fin.2.isEmpty then ["Score below threshold"] else fin.2⟩

/-- A stored proposal record. -/
structure Proposal where
  id : Nat
  text : String
  scores : ScoreRecord
  user : String
  status : String
  eval_comment : String

/-- The per-session `st.session_state` fields the app uses. -/
structure SessionState where
  logged_in : Bool
  username : String
  role : String
  proposals : List Proposal

/-- The static `USERS` table, as the lookup `USERS.get(username)` giving
`(password, role)`. -/
def USERS (username : String) : Option (String × String) :=
  if username = "admin" then some ("admin123", "admin")
  else if username = "company1" then some ("comp123", "company")
  else if username = "evaluator1" then some ("eval123", "evaluator")
  else none

/-- `authenticate` of the source. -/
def authenticate (username password : String) : Option String :=
  match USERS username with
  | some (pw, role) => if pw = password then some role else none
  | none => none

/-- The state change and error output of the `login` handler once the
button is pressed with the given credentials. -/
def login_action (s : SessionState) (username password : String) :
    SessionState × List String :=
  match authenticate username password with
  | some role =>
    ({ s with logged_in := true, username := username, role := role }, [])
  | none => (s, ["Invalid username or password"])

/-- `logout` of the source. -/
def logout_action (s : SessionState) : SessionState :=
  { s with logged_in := false, username := "", role := "" }

/-- Outcome of reading the uploaded budget CSV (`pd.read_csv` plus the
`Amount`-column check): the parse may fail, the column may be missing, or
the `Amount` column is obtained in row order. -/
inductive BudgetUpload where
  | unreadable : BudgetUpload
  | missingAmount : BudgetUpload
  | table : Budget → BudgetUpload

/-- Python whitespace, as stripped by `str.strip()`. -/
def isSpaceCode (n : Nat) : Bool :=
  n == 32 || n == 9 || n == 10 || n == 13 || n == 11 || n == 12

/-- `not text.strip()`: the extracted text is empty or all whitespace. -/
def stripEmpty (text : String) : Bool := (codes text).all isSpaceCode

/-- The submission branch of `company_dashboard`, given the text extracted
from the uploaded PDF and the outcome of reading the budget CSV: returns
the new session state and the list of error messages shown. -/
noncomputable def submit_action (s : SessionState) (text : String)
    (budget : BudgetUpload) : SessionState × List String :=
  if stripEmpty text then (s, ["Could not extract text from PDF"])
  else
    match budget with
    | .unreadable => (s, ["Error reading budget CSV"])
    | .missingAmount => (s, ["Budget CSV must include Amount column"])
    | .table amounts =>
      let scores := compute_weighted_score text amounts
      let proposal : Proposal :=
        { id := s.proposals.length + 1, text := text, scores := scores,
          user := s.username, status := scores.status, eval_comment := "" }
      ({ s with proposals := s.proposals ++ [proposal] }, [])

/-! ## Rounding and floor lemmas -/

theorem round_mono_of_le {α : Type} [LinearOrderedField α] [FloorRing α]
    {x y : α} (h : x ≤ y) : round x ≤ round y := by
  rw [round_eq, round_eq]
  exact Int.floor_le_floor (by linarith)

theorem round2_mono {x y : ℚ} (h : x ≤ y) : round2 x ≤ round2 y := by
  unfold round2
  have h2 : round (x * 100) ≤ round (y * 100) := round_mono_of_le (by linarith)
  have h3 : ((round (x * 100) : ℤ) : ℚ) ≤ ((round (y * 100) : ℤ) : ℚ) := by
    exact_mod_cast h2
  linarith

theorem round2R_mono {x y : ℝ} (h : x ≤ y) : round2R x ≤ round2R y := by
  unfold round2R
  have h2 : round (x * 100) ≤ round (y * 100) := round_mono_of_le (by linarith)
  have h3 : ((round (x * 100) : ℤ) : ℝ) ≤ ((round (y * 100) : ℤ) : ℝ) := by
    exact_mod_cast h2
  linarith

theorem round2_hundred : round2 (100 : ℚ) = 100 := by
  norm_num [round2, round_eq]

theorem round2_zero : round2 (0 : ℚ) = 0 := by
  norm_num [round2, round_eq]

theorem round2R_zero : round2R (0 : ℝ) = 0 := by
  norm_num [round2R, round_eq]

theorem round2R_ten : round2R (10 : ℝ) = 10 := by
  norm_num [round2R, round_eq]

theorem ten_le_min_score (q : ℚ) : 10 ≤ min_score q := le_max_right _ _

theorem min_score_mono {a b : ℚ} (h : a ≤ b) : min_score a ≤ min_score b :=
  max_le_max h le_rfl

theorem ten_le_min_scoreR (x : ℝ) : 10 ≤ min_scoreR x := le_max_right _ _

/-! ## Generic facts about the keyword scorers -/

/-- The common shape of the five keyword scorers. -/
def kwScoreVal (keys : List String) (text : String) : ℚ :=
  min_score (round2 (100 * (matchCount keys text : ℚ) / keys.length))

theorem score_relevance_eq (text : String) :
    score_relevance text = kwScoreVal relevance_keywords text := rfl

theorem score_technical_feasibility_eq (text : String) :
    score_technical_feasibility text = kwScoreVal feasibility_keywords text := rfl

theorem score_impact_potential_eq (text : String) :
    score_impact_potential text = kwScoreVal impact_keywords text := rfl

theorem score_institutional_capability_eq (text : String) :
    score_institutional_capability text = kwScoreVal institutional_keywords text := rfl

theorem score_compliance_and_completeness_eq (text : String) :
    score_compliance_and_completeness text = kwScoreVal compliance_keywords text := rfl

theorem kwScoreVal_mono (keys : List String) {t1 t2 : String}
    (h : matchCount keys t1 ≤ matchCount keys t2) :
    kwScoreVal keys t1 ≤ kwScoreVal keys t2 := by
  unfold kwScoreVal
  refine min_score_mono (round2_mono ?_)
  rcases Nat.eq_zero_or_pos keys.length with h0 | h0
  · simp [h0]
  · have hlen : (0 : ℚ) < keys.length := by exact_mod_cast h0
    have hm : (matchCount keys t1 : ℚ) ≤ matchCount keys t2 := by exact_mod_cast h
    gcongr

theorem ten_le_kwScoreVal (keys : List String) (t : String) :
    10 ≤ kwScoreVal keys t := ten_le_min_score _

theorem kwScoreVal_le_100 (keys : List String) (t : String) :
    kwScoreVal keys t ≤ 100 := by
  unfold kwScoreVal min_score
  refine max_le ?_ (by norm_num)
  have hcount : matchCount keys t ≤ keys.length := List.countP_le_length _
  rcases Nat.eq_zero_or_pos keys.length with h0 | h0
  · simp [h0, round2_zero]
  · have hlen : (0 : ℚ) < keys.length := by exact_mod_cast h0
    have hle : 100 * (matchCount keys t : ℚ) / keys.length ≤ 100 := by
      rw [div_le_iff₀ hlen]
      have : (matchCount keys t : ℚ) ≤ keys.length := by exact_mod_cast hcount
      nlinarith
    calc round2 (100 * (matchCount keys t : ℚ) / keys.length)
        ≤ round2 100 := round2_mono hle
      _ = 100 := round2_hundred

/-! ## Case-insensitivity

On ASCII text, lower-casing after upper-casing agrees with lower-casing
directly, so the keyword scorers cannot see the difference.  This fails
for full Unicode casing (ß upper-cases to SS), which is what refutes the
universal form of the case-insensitivity claim below. -/

theorem lowerChars_upperChars_ascii :
    ∀ c < 128, (upperChars c).flatMap lowerChars = lowerChars c := by decide

theorem flatMap_lower_upper {l : List Nat} (h : ∀ c ∈ l, c < 128) :
    (l.flatMap upperChars).flatMap lowerChars = l.flatMap lowerChars := by
  induction l with
  | nil => rfl
  | cons c cs ih =>
    rw [List.flatMap_cons, List.flatMap_cons, List.flatMap_append,
      lowerChars_upperChars_ascii c (h c (by simp)),
      ih (fun x hx => h x (by simp [hx]))]

theorem lowerCodes_upper_ascii {T U : String} (hA : ∀ c ∈ codes T, c < 128)
    (h : codes U = upperCodes T) : lowerCodes U = lowerCodes T := by
  unfold lowerCodes
  rw [h]
  unfold upperCodes
  rw [flatMap_lower_upper hA]

theorem matchCount_upper (keys : List String) {T U : String}
    (hA : ∀ c ∈ codes T, c < 128) (h : codes U = upperCodes T) :
    matchCount keys U = matchCount keys T := by
  unfold matchCount
  rw [lowerCodes_upper_ascii hA h]

theorem kwScoreVal_upper (keys : List String) {T U : String}
    (hA : ∀ c ∈ codes T, c < 128) (h : codes U = upperCodes T) :
    kwScoreVal keys U = kwScoreVal keys T := by
  unfold kwScoreVal
  rw [matchCount_upper keys hA h]

/-! ## Novelty lemmas -/

theorem df_le_length (docs : List String) (w : List Nat) :
    df docs w ≤ docs.length := List.countP_le_length _

theorem one_le_idf (docs : List String) (w : List Nat) : 1 ≤ idf docs w := by
  unfold idf
  have hlog : 0 ≤ Real.log ((1 + docs.length) / (1 + df docs w)) := by
    apply Real.log_nonneg
    rw [one_le_div (by positivity)]
    have h : (df docs w : ℝ) ≤ docs.length := by
      exact_mod_cast df_le_length docs w
    linarith
  linarith

theorem mem_vocab_of_mem_tokens {docs : List String} {d : String}
    (hd : d ∈ docs) {w : List Nat} (hw : w ∈ tokens d) : w ∈ vocab docs := by
  unfold vocab
  rw [List.mem_toFinset, List.mem_flatMap]
  exact ⟨d, hd, hw⟩

theorem sum_tfidf_sq_pos {docs : List String} {d : String} (hd : d ∈ docs)
    (ht : tokens d ≠ []) : 0 < ∑ w ∈ vocab docs, tfidf docs d w ^ 2 := by
  have hw : (tokens d).head ht ∈ tokens d := List.head_mem ht
  refine Finset.sum_pos' (fun w _ => sq_nonneg _)
    ⟨(tokens d).head ht, mem_vocab_of_mem_tokens hd hw, ?_⟩
  have hc : 0 < (tokens d).count ((tokens d).head ht) :=
    List.count_pos_iff.2 hw
  have hc1 : (1 : ℝ) ≤ ((tokens d).count ((tokens d).head ht) : ℝ) := by
    exact_mod_cast hc
  have hidf := one_le_idf docs ((tokens d).head ht)
  have hpos : 0 < tfidf docs d ((tokens d).head ht) := by
    unfold tfidf; nlinarith
  exact pow_pos hpos 2

theorem tfidfNorm_pos {docs : List String} {d : String} (hd : d ∈ docs)
    (ht : tokens d ≠ []) : 0 < tfidfNorm docs d := by
  unfold tfidfNorm
  exact Real.sqrt_pos.2 (sum_tfidf_sq_pos hd ht)

theorem sum_tfidfUnit_sq {docs : List String} {d : String}
    (h : tfidfNorm docs d ≠ 0) :
    ∑ w ∈ vocab docs, tfidfUnit docs d w ^ 2 = 1 := by
  have hS : 0 ≤ ∑ w ∈ vocab docs, tfidf docs d w ^ 2 :=
    Finset.sum_nonneg fun w _ => sq_nonneg _
  have hnorm : tfidfNorm docs d ^ 2 = ∑ w ∈ vocab docs, tfidf docs d w ^ 2 := by
    unfold tfidfNorm; exact Real.sq_sqrt hS
  have hS0 : (∑ w ∈ vocab docs, tfidf docs d w ^ 2) ≠ 0 := by
    intro h0
    apply h
    unfold tfidfNorm
    rw [h0]
    exact Real.sqrt_zero
  simp only [tfidfUnit, if_neg h]
  simp_rw [div_pow]
  rw [← Finset.sum_div, hnorm]
  exact div_self hS0

theorem sum_tfidfUnit_sq_le_one (docs : List String) (d : String) :
    ∑ w ∈ vocab docs, tfidfUnit docs d w ^ 2 ≤ 1 := by
  by_cases h : tfidfNorm docs d = 0
  · simp [tfidfUnit, h]
  · rw [sum_tfidfUnit_sq h]

theorem cosSim_le_one (docs : List String) (a b : String) :
    cosSim docs a b ≤ 1 := by
  unfold cosSim
  have hcs := Finset.sum_mul_sq_le_sq_mul_sq (vocab docs)
    (fun w => tfidfUnit docs a w) (fun w => tfidfUnit docs b w)
  have ha := sum_tfidfUnit_sq_le_one docs a
  have hb := sum_tfidfUnit_sq_le_one docs b
  have hA : 0 ≤ ∑ w ∈ vocab docs, tfidfUnit docs a w ^ 2 :=
    Finset.sum_nonneg fun w _ => sq_nonneg _
  have hB : 0 ≤ ∑ w ∈ vocab docs, tfidfUnit docs b w ^ 2 :=
    Finset.sum_nonneg fun w _ => sq_nonneg _
  nlinarith [sq_nonneg
    ((∑ w ∈ vocab docs, tfidfUnit docs a w * tfidfUnit docs b w) - 1)]

theorem cosSim_self {docs : List String} {d : String}
    (h : tfidfNorm docs d ≠ 0) : cosSim docs d d = 1 := by
  unfold cosSim
  have hsq : ∀ w ∈ vocab docs,
      tfidfUnit docs d w * tfidfUnit docs d w = tfidfUnit docs d w ^ 2 := by
    intro w _; ring
  rw [Finset.sum_congr rfl hsq, sum_tfidfUnit_sq h]

theorem le_foldl_max (x : ℝ) (xs : List ℝ) : x ≤ xs.foldl max x := by
  induction xs generalizing x with
  | nil => simp
  | cons y ys ih => exact le_trans (le_max_left x y) (ih (max x y))

theorem foldl_max_le {a : ℝ} (x : ℝ) (xs : List ℝ) (hx : x ≤ a)
    (h : ∀ y ∈ xs, y ≤ a) : xs.foldl max x ≤ a := by
  induction xs generalizing x with
  | nil => simpa using hx
  | cons y ys ih =>
    exact ih (max x y) (max_le hx (h y (by simp)))
      (fun z hz => h z (by simp [hz]))

theorem mem_le_foldl_max (xs : List ℝ) (x a : ℝ) (ha : a ∈ xs) :
    a ≤ xs.foldl max x := by
  induction xs generalizing x with
  | nil => cases ha
  | cons y ys ih =>
    rcases List.mem_cons.1 ha with rfl | h
    · exact le_trans (le_max_right x a) (le_foldl_max _ _)
    · exact ih (max x y) h

theorem listMax_eq_one {l : List ℝ} (h1 : (1 : ℝ) ∈ l)
    (hle : ∀ x ∈ l, x ≤ 1) : listMax l = 1 := by
  cases l with
  | nil => cases h1
  | cons x xs =>
    unfold listMax
    apply le_antisymm
    · exact foldl_max_le x xs (hle x (by simp)) (fun y hy => hle y (by simp [hy]))
    · rcases List.mem_cons.1 h1 with h | h
      · rw [h]
        exact le_foldl_max x xs
      · exact mem_le_foldl_max xs x 1 h

/-- A text equal to one of the benchmarks has cosine similarity exactly 1
with that benchmark, hence maximal similarity 1 and a raw (pre-floor)
novelty of exactly 0. -/
theorem rawNovelty_self {b : String} (hb : b ∈ BENCHMARKS)
    (ht : tokens b ≠ []) :
    round2R ((1 - listMax (BENCHMARKS.map
      (fun c => cosSim (BENCHMARKS ++ [b]) b c))) * 100) = 0 := by
  have hdocs : b ∈ BENCHMARKS ++ [b] := by simp
  have hnorm : tfidfNorm (BENCHMARKS ++ [b]) b ≠ 0 :=
    ne_of_gt (tfidfNorm_pos hdocs ht)
  have hmem : (1 : ℝ) ∈
      BENCHMARKS.map (fun c => cosSim (BENCHMARKS ++ [b]) b c) :=
    List.mem_map.2 ⟨b, hb, cosSim_self hnorm⟩
  have hle : ∀ x ∈ BENCHMARKS.map (fun c => cosSim (BENCHMARKS ++ [b]) b c),
      x ≤ 1 := by
    intro x hx
    rcases List.mem_map.1 hx with ⟨c, _, rfl⟩
    exact cosSim_le_one _ _ _
  rw [listMax_eq_one hmem hle]
  have h0 : ((1 : ℝ) - 1) * 100 = 0 := by ring
  rw [h0, round2R_zero]

theorem score_novelty_self {b : String} (hb : b ∈ BENCHMARKS)
    (ht : tokens b ≠ []) : score_novelty b = 10 := by
  simp only [score_novelty]
  rw [rawNovelty_self hb ht]
  unfold min_scoreR
  exact max_eq_right (by norm_num)

theorem tokens_bench0 :
    tokens "Optimized coal mining using IoT sensors." ≠ [] := by decide

theorem tokens_bench1 :
    tokens "Advanced rare earth extraction from coal ash." ≠ [] := by decide

theorem tokens_bench2 :
    tokens "AI techniques for predictive maintenance in mines." ≠ [] := by decide

theorem score_novelty_bench0 :
    score_novelty "Optimized coal mining using IoT sensors." = 10 :=
  score_novelty_self (by simp [BENCHMARKS]) tokens_bench0

theorem score_novelty_bench1 :
    score_novelty "Advanced rare earth extraction from coal ash." = 10 :=
  score_novelty_self (by simp [BENCHMARKS]) tokens_bench1

theorem score_novelty_bench2 :
    score_novelty "AI techniques for predictive maintenance in mines." = 10 :=
  score_novelty_self (by simp [BENCHMARKS]) tokens_bench2

theorem kwScoreVal_of_no_match (keys : List String) (t : String)
    (h : matchCount keys t = 0) : kwScoreVal keys t = 10 := by
  unfold kwScoreVal
  rw [h]
  norm_num [round2_zero, min_score]

theorem kwScoreVal_empty (keys : List String)
    (h : matchCount keys "" = 0) : kwScoreVal keys "" = 10 :=
  kwScoreVal_of_no_match keys "" h

/-! ## The claims -/

/-- C2 (amended): each keyword-based scorer returns
`max (round2 (100 * matches / total), 10)` — the raw keyword fraction is
floored at 10 by `min_score` — and in particular every keyword scorer
returns 10 (not 0) on empty text. -/
theorem c2_keyword_scorers :
    (∀ text : String,
      score_relevance text =
        max (round2 (100 * (matchCount relevance_keywords text : ℚ) / 6)) 10 ∧
      score_technical_feasibility text =
        max (round2 (100 * (matchCount feasibility_keywords text : ℚ) / 6)) 10 ∧
      score_impact_potential text =
        max (round2 (100 * (matchCount impact_keywords text : ℚ) / 5)) 10 ∧
      score_institutional_capability text =
        max (round2 (100 * (matchCount institutional_keywords text : ℚ) / 4)) 10 ∧
      score_compliance_and_completeness text =
        max (round2 (100 * (matchCount compliance_keywords text : ℚ) / 6)) 10) ∧
    score_relevance "" = 10 ∧
    score_technical_feasibility "" = 10 ∧
    score_impact_potential "" = 10 ∧
    score_institutional_capability "" = 10 ∧
    score_compliance_and_completeness "" = 10 := by
  constructor
  · intro text
    refine ⟨?_, ?_, ?_, ?_, ?_⟩ <;>
      simp [score_relevance, score_technical_feasibility,
        score_impact_potential, score_institutional_capability,
        score_compliance_and_completeness, min_score, relevance_keywords,
        feasibility_keywords, impact_keywords, institutional_keywords,
        compliance_keywords]
  · refine ⟨?_, ?_, ?_, ?_, ?_⟩
    · exact (score_relevance_eq "").trans (kwScoreVal_empty _ (by decide))
    · exact (score_technical_feasibility_eq "").trans
        (kwScoreVal_empty _ (by decide))
    · exact (score_impact_potential_eq "").trans (kwScoreVal_empty _ (by decide))
    · exact (score_institutional_capability_eq "").trans
        (kwScoreVal_empty _ (by decide))
    · exact (score_compliance_and_completeness_eq "").trans
        (kwScoreVal_empty _ (by decide))

/-- C2 counterexample: on empty text the relevance scorer returns 10,
although the claimed formula `round2 (100 * matches / total)` evaluates to
0 there; in particular the scorer does not return 0 on empty text. -/
theorem c2_counterexample :
    score_relevance "" = 10 ∧
    round2 (100 * (matchCount relevance_keywords "" : ℚ) /
      relevance_keywords.length) = 0 ∧
    score_relevance "" ≠ 0 := by
  have h0 : matchCount relevance_keywords "" = 0 := by decide
  have h1 : score_relevance "" = 10 :=
    (score_relevance_eq "").trans (kwScoreVal_empty _ h0)
  refine ⟨h1, ?_, by rw [h1]; norm_num⟩
  rw [h0]
  norm_num [round2_zero]

/-- C3 (amended): the novelty score is
`max (round2 (100 * (1 - max cosine similarity)), 10)` — floored at 10 by
`min_score` — and for any text identical to one of the three benchmark
texts the maximal similarity is 1, so the novelty score is the floor value
10 (not approximately 0). -/
theorem c3_novelty :
    (∀ text : String,
      score_novelty text =
        max (round2R ((1 - listMax (BENCHMARKS.map
          (fun b => cosSim (BENCHMARKS ++ [text]) text b))) * 100)) 10) ∧
    score_novelty "Optimized coal mining using IoT sensors." = 10 ∧
    score_novelty "Advanced rare earth extraction from coal ash." = 10 ∧
    score_novelty "AI techniques for predictive maintenance in mines." = 10 :=
  ⟨fun _ => rfl, score_novelty_bench0, score_novelty_bench1,
    score_novelty_bench2⟩

/-- C3 counterexample: for the first benchmark text itself, the claimed
value `round2 (100 * (1 - max similarity))` is exactly 0, but the novelty
scorer returns 10, not 0. -/
theorem c3_counterexample :
    score_novelty "Optimized coal mining using IoT sensors." = 10 ∧
    round2R ((1 - listMax (BENCHMARKS.map (fun b =>
      cosSim (BENCHMARKS ++ ["Optimized coal mining using IoT sensors."])
        "Optimized coal mining using IoT sensors." b))) * 100) = 0 ∧
    score_novelty "Optimized coal mining using IoT sensors." ≠ 0 := by
  refine ⟨score_novelty_bench0, ?_, by rw [score_novelty_bench0]; norm_num⟩
  exact rawNovelty_self (by simp [BENCHMARKS]) tokens_bench0

/-- C4: the financial-viability scorer flags the budget cap exactly when
the total exceeds 2,000,000, flags the first milestone exactly when the
total is positive and the first amount exceeds 0.4 of the total (a zero
total never raises the milestone flag), and scores 100 with no flags and
50 otherwise, returning the ordered flag list. -/
theorem c4_financial (budget : Budget) :
    (score_financial_viability budget).2 =
      (if budget.sum > 2000000 then ["Budget exceeds max INR 20 lakhs"]
        else []) ++
      (if budget.sum > 0 ∧ budget.headD 0 / budget.sum > 0.4 then
        ["First milestone > 40% of total budget"] else []) ∧
    ("Budget exceeds max INR 20 lakhs" ∈ (score_financial_viability budget).2 ↔
      budget.sum > 2000000) ∧
    ("First milestone > 40% of total budget" ∈
        (score_financial_viability budget).2 ↔
      (budget.sum > 0 ∧ budget.headD 0 / budget.sum > 0.4)) ∧
    (score_financial_viability budget).1 =
      (if (score_financial_viability budget).2.isEmpty then 100 else 50) := by
  have hne : ("Budget exceeds max INR 20 lakhs" : String) ≠
      "First milestone > 40% of total budget" := by decide
  simp only [score_financial_viability]
  by_cases h1 : budget.sum > 2000000 <;>
    by_cases h2 : budget.sum > 0 ∧ budget.headD 0 / budget.sum > 0.4 <;>
      simp [h1, h2, min_score, hne, Ne.symm hne] <;>
        (try split) <;> norm_num

/-- C6 (amended): for ASCII text (every code point below 128), each
keyword-based scorer is case-insensitive — upper-casing the text leaves
the score unchanged; for arbitrary text this fails under full Unicode
casing (see the counterexample at "emißions"). Monotonicity in the
number of matched keywords and the [0, 100] bounds hold for every
text. -/
theorem c6_scorer_properties :
    (∀ T U : String, (∀ c ∈ codes T, c < 128) → codes U = upperCodes T →
      score_relevance U = score_relevance T ∧
      score_technical_feasibility U = score_technical_feasibility T ∧
      score_impact_potential U = score_impact_potential T ∧
      score_institutional_capability U = score_institutional_capability T ∧
      score_compliance_and_completeness U =
        score_compliance_and_completeness T) ∧
    (∀ T1 T2 : String,
      (matchCount relevance_keywords T1 ≤ matchCount relevance_keywords T2 →
        score_relevance T1 ≤ score_relevance T2) ∧
      (matchCount feasibility_keywords T1 ≤ matchCount feasibility_keywords T2 →
        score_technical_feasibility T1 ≤ score_technical_feasibility T2) ∧
      (matchCount impact_keywords T1 ≤ matchCount impact_keywords T2 →
        score_impact_potential T1 ≤ score_impact_potential T2) ∧
      (matchCount institutional_keywords T1 ≤
          matchCount institutional_keywords T2 →
        score_institutional_capability T1 ≤
          score_institutional_capability T2) ∧
      (matchCount compliance_keywords T1 ≤ matchCount compliance_keywords T2 →
        score_compliance_and_completeness T1 ≤
          score_compliance_and_completeness T2)) ∧
    (∀ T : String,
      (0 ≤ score_relevance T ∧ score_relevance T ≤ 100) ∧
      (0 ≤ score_technical_feasibility T ∧
        score_technical_feasibility T ≤ 100) ∧
      (0 ≤ score_impact_potential T ∧ score_impact_potential T ≤ 100) ∧
      (0 ≤ score_institutional_capability T ∧
        score_institutional_capability T ≤ 100) ∧
      (0 ≤ score_compliance_and_completeness T ∧
        score_compliance_and_completeness T ≤ 100)) := by
  refine ⟨?_, ?_, ?_⟩
  · intro T U hA h
    exact ⟨by rw [score_relevance_eq, score_relevance_eq,
        kwScoreVal_upper _ hA h],
      by rw [score_technical_feasibility_eq, score_technical_feasibility_eq,
        kwScoreVal_upper _ hA h],
      by rw [score_impact_potential_eq, score_impact_potential_eq,
        kwScoreVal_upper _ hA h],
      by rw [score_institutional_capability_eq,
        score_institutional_capability_eq, kwScoreVal_upper _ hA h],
      by rw [score_compliance_and_completeness_eq,
        score_compliance_and_completeness_eq, kwScoreVal_upper _ hA h]⟩
  · intro T1 T2
    exact ⟨fun h => by
        rw [score_relevance_eq, score_relevance_eq]
        exact kwScoreVal_mono _ h,
      fun h => by
        rw [score_technical_feasibility_eq, score_technical_feasibility_eq]
        exact kwScoreVal_mono _ h,
      fun h => by
        rw [score_impact_potential_eq, score_impact_potential_eq]
        exact kwScoreVal_mono _ h,
      fun h => by
        rw [score_institutional_capability_eq,
          score_institutional_capability_eq]
        exact kwScoreVal_mono _ h,
      fun h => by
        rw [score_compliance_and_completeness_eq,
          score_compliance_and_completeness_eq]
        exact kwScoreVal_mono _ h⟩
  · intro T
    have h0 : ∀ (keys : List String) (t : String), (0 : ℚ) ≤ kwScoreVal keys t :=
      fun keys t => le_trans (by norm_num) (ten_le_kwScoreVal keys t)
    refine ⟨⟨?_, ?_⟩, ⟨?_, ?_⟩, ⟨?_, ?_⟩, ⟨?_, ?_⟩, ⟨?_, ?_⟩⟩
    · rw [score_relevance_eq]; exact h0 _ _
    · rw [score_relevance_eq]; exact kwScoreVal_le_100 _ _
    · rw [score_technical_feasibility_eq]; exact h0 _ _
    · rw [score_technical_feasibility_eq]; exact kwScoreVal_le_100 _ _
    · rw [score_impact_potential_eq]; exact h0 _ _
    · rw [score_impact_potential_eq]; exact kwScoreVal_le_100 _ _
    · rw [score_institutional_capability_eq]; exact h0 _ _
    · rw [score_institutional_capability_eq]; exact kwScoreVal_le_100 _ _
    · rw [score_compliance_and_completeness_eq]; exact h0 _ _
    · rw [score_compliance_and_completeness_eq]; exact kwScoreVal_le_100 _ _

/-- C6 witness: concrete instances of the ASCII case-insensitivity and
monotonicity parts, with the hypotheses discharged by computation. -/
theorem c6_witness :
    score_relevance "SAFETY" = score_relevance "safety" ∧
    score_relevance "" ≤ score_relevance "safety" :=
  ⟨(c6_scorer_properties.1 "safety" "SAFETY" (by decide) (by decide)).1,
   (c6_scorer_properties.2.1 "" "safety").1 (by decide)⟩

/-- C6 counterexample: full Unicode casing breaks case-insensitivity.
Upper-casing "emißions" gives "EMISSIONS" (ß upper-cases to SS), whose
lower-casing contains the impact keyword "emissions": the impact scorer
gives 10 to "emißions" but 20 to "EMISSIONS", so the scorer is not
case-insensitive on every input text. -/
theorem c6_counterexample :
    upperCodes "emißions" = codes "EMISSIONS" ∧
    score_impact_potential "emißions" = 10 ∧
    score_impact_potential "EMISSIONS" = 20 ∧
    score_impact_potential "emißions" ≠ score_impact_potential "EMISSIONS" := by
  have hup : upperCodes "emißions" = codes "EMISSIONS" := by decide
  have h0 : matchCount impact_keywords "emißions" = 0 := by decide
  have h1 : matchCount impact_keywords "EMISSIONS" = 1 := by decide
  have hs0 : score_impact_potential "emißions" = 10 :=
    (score_impact_potential_eq _).trans (kwScoreVal_of_no_match _ _ h0)
  have hs1 : score_impact_potential "EMISSIONS" = 20 := by
    rw [score_impact_potential_eq]
    unfold kwScoreVal
    rw [h1]
    have hl : impact_keywords.length = 5 := rfl
    rw [hl]
    norm_num [round2, round_eq, min_score]
  exact ⟨hup, hs0, hs1, by rw [hs0, hs1]; norm_num⟩

/-- C7: scoring is deterministic — two computations of the full score
record on the same text and budget give identical results. -/
theorem c7_deterministic (text : String) (budget : Budget)
    (r1 r2 : ScoreRecord) (h1 : r1 = compute_weighted_score text budget)
    (h2 : r2 = compute_weighted_score text budget) : r1 = r2 := by
  rw [h1, h2]

/-- C7 witness: the two runs coincide on a concrete input. -/
theorem c7_witness :
    compute_weighted_score "coal mining" [100] =
      compute_weighted_score "coal mining" [100] :=
  c7_deterministic "coal mining" [100] _ _ rfl rfl

theorem cw_fields (text : String) (budget : Budget) :
    (compute_weighted_score text budget).relevance =
      ((score_relevance text : ℚ) : ℝ) ∧
    (compute_weighted_score text budget).novelty = score_novelty text ∧
    (compute_weighted_score text budget).feasibility =
      ((score_technical_feasibility text : ℚ) : ℝ) ∧
    (compute_weighted_score text budget).financial =
      (((score_financial_viability budget).1 : ℚ) : ℝ) ∧
    (compute_weighted_score text budget).impact =
      ((score_impact_potential text : ℚ) : ℝ) ∧
    (compute_weighted_score text budget).institutional =
      ((score_institutional_capability text : ℚ) : ℝ) ∧
    (compute_weighted_score text budget).compliance =
      ((score_compliance_and_completeness text : ℚ) : ℝ) ∧
    (compute_weighted_score text budget).overall =
      round2R (((score_relevance text : ℚ) : ℝ) * 0.2 +
        score_novelty text * 0.2 +
        ((score_technical_feasibility text : ℚ) : ℝ) * 0.2 +
        (((score_financial_viability budget).1 : ℚ) : ℝ) * 0.15 +
        ((score_impact_potential text : ℚ) : ℝ) * 0.15 +
        ((score_institutional_capability text : ℚ) : ℝ) * 0.05 +
        ((score_compliance_and_completeness text : ℚ) : ℝ) * 0.05) := by
  simp only [compute_weighted_score]
  split_ifs <;> exact ⟨rfl, rfl, rfl, rfl, rfl, rfl, rfl, rfl⟩

/-- C1: the overall score is the fixed weighted combination
0.2/0.2/0.2/0.15/0.15/0.05/0.05 of the seven sub-scores rounded to two
decimals, and the status and reasons are determined by the closed
thresholds 70 and 50, with the financial-issue list used as reasons when
non-empty and a generic reason otherwise. -/
theorem c1_aggregator (text : String) (budget : Budget) :
    (compute_weighted_score text budget).overall =
      round2R ((compute_weighted_score text budget).relevance * 0.2 +
        (compute_weighted_score text budget).novelty * 0.2 +
        (compute_weighted_score text budget).feasibility * 0.2 +
        (compute_weighted_score text budget).financial * 0.15 +
        (compute_weighted_score text budget).impact * 0.15 +
        (compute_weighted_score text budget).institutional * 0.05 +
        (compute_weighted_score text budget).compliance * 0.05) ∧
    (compute_weighted_score text budget).status =
      (if 70 ≤ (compute_weighted_score text budget).overall then "Accepted"
       else if 50 ≤ (compute_weighted_score text budget).overall then
         "Conditional Acceptance (Revision Needed)"
       else "Rejected") ∧
    (compute_weighted_score text budget).reasons =
      (if 70 ≤ (compute_weighted_score text budget).overall then []
       else if (score_financial_viability budget).2.isEmpty then
         (if 50 ≤ (compute_weighted_score text budget).overall then
           ["Requires revision"] else ["Score below threshold"])
       else (score_financial_viability budget).2) := by
  simp only [compute_weighted_score]
  split_ifs with h1 h2 <;> simp [*]

theorem ten_le_score_relevance (t : String) : (10 : ℚ) ≤ score_relevance t :=
  ten_le_min_score _

theorem ten_le_score_technical_feasibility (t : String) :
    (10 : ℚ) ≤ score_technical_feasibility t := ten_le_min_score _

theorem ten_le_score_impact_potential (t : String) :
    (10 : ℚ) ≤ score_impact_potential t := ten_le_min_score _

theorem ten_le_score_institutional_capability (t : String) :
    (10 : ℚ) ≤ score_institutional_capability t := ten_le_min_score _

theorem ten_le_score_compliance_and_completeness (t : String) :
    (10 : ℚ) ≤ score_compliance_and_completeness t := ten_le_min_score _

theorem ten_le_score_financial_viability (b : Budget) :
    (10 : ℚ) ≤ (score_financial_viability b).1 := by
  simp only [score_financial_viability]
  exact ten_le_min_score _

theorem ten_le_score_novelty (t : String) : (10 : ℝ) ≤ score_novelty t :=
  ten_le_min_scoreR _

/-- C5: every sub-score is floored at 10 by `min_score`, and the weights
sum to 1, so the overall score is also never below 10. -/
theorem c5_floor_ten (text : String) (budget : Budget) :
    10 ≤ (compute_weighted_score text budget).relevance ∧
    10 ≤ (compute_weighted_score text budget).novelty ∧
    10 ≤ (compute_weighted_score text budget).feasibility ∧
    10 ≤ (compute_weighted_score text budget).financial ∧
    10 ≤ (compute_weighted_score text budget).impact ∧
    10 ≤ (compute_weighted_score text budget).institutional ∧
    10 ≤ (compute_weighted_score text budget).compliance ∧
    10 ≤ (compute_weighted_score text budget).overall := by
  obtain ⟨f1, f2, f3, f4, f5, f6, f7, f8⟩ := cw_fields text budget
  have h1 : (10 : ℝ) ≤ ((score_relevance text : ℚ) : ℝ) := by
    exact_mod_cast ten_le_score_relevance text
  have h2 : (10 : ℝ) ≤ score_novelty text := ten_le_score_novelty text
  have h3 : (10 : ℝ) ≤ ((score_technical_feasibility text : ℚ) : ℝ) := by
    exact_mod_cast ten_le_score_technical_feasibility text
  have h4 : (10 : ℝ) ≤ (((score_financial_viability budget).1 : ℚ) : ℝ) := by
    exact_mod_cast ten_le_score_financial_viability budget
  have h5 : (10 : ℝ) ≤ ((score_impact_potential text : ℚ) : ℝ) := by
    exact_mod_cast ten_le_score_impact_potential text
  have h6 : (10 : ℝ) ≤ ((score_institutional_capability text : ℚ) : ℝ) := by
    exact_mod_cast ten_le_score_institutional_capability text
  have h7 : (10 : ℝ) ≤ ((score_compliance_and_completeness text : ℚ) : ℝ) := by
    exact_mod_cast ten_le_score_compliance_and_completeness text
  refine ⟨f1 ▸ h1, f2 ▸ h2, f3 ▸ h3, f4 ▸ h4, f5 ▸ h5, f6 ▸ h6, f7 ▸ h7, ?_⟩
  rw [f8]
  have hsum : (10 : ℝ) ≤ ((score_relevance text : ℚ) : ℝ) * 0.2 +
      score_novelty text * 0.2 +
      ((score_technical_feasibility text : ℚ) : ℝ) * 0.2 +
      (((score_financial_viability budget).1 : ℚ) : ℝ) * 0.15 +
      ((score_impact_potential text : ℚ) : ℝ) * 0.15 +
      ((score_institutional_capability text : ℚ) : ℝ) * 0.05 +
      ((score_compliance_and_completeness text : ℚ) : ℝ) * 0.05 := by
    nlinarith [h1, h2, h3, h4, h5, h6, h7]
  calc (10 : ℝ) = round2R 10 := round2R_ten.symm
    _ ≤ _ := round2R_mono hsum

/-- C8: all three blocking validation failures (empty extracted text,
unreadable budget CSV, missing Amount column) leave the session state — in
particular the proposal store — unchanged and produce the corresponding
error message. -/
theorem c8_validation (s : SessionState) (text : String)
    (budget : BudgetUpload) :
    (stripEmpty text = true →
      submit_action s text budget = (s, ["Could not extract text from PDF"])) ∧
    (stripEmpty text = false → budget = BudgetUpload.unreadable →
      submit_action s text budget = (s, ["Error reading budget CSV"])) ∧
    (stripEmpty text = false → budget = BudgetUpload.missingAmount →
      submit_action s text budget =
        (s, ["Budget CSV must include Amount column"])) := by
  refine ⟨?_, ?_, ?_⟩
  · intro h
    simp [submit_action, h]
  · intro h hb
    subst hb
    simp [submit_action, h]
  · intro h hb
    subst hb
    simp [submit_action, h]

/-- C8 witness: the three failure branches on concrete inputs. -/
theorem c8_witness :
    submit_action ⟨true, "company1", "company", []⟩ " " BudgetUpload.unreadable =
      (⟨true, "company1", "company", []⟩,
        ["Could not extract text from PDF"]) ∧
    submit_action ⟨true, "company1", "company", []⟩ "x" BudgetUpload.unreadable =
      (⟨true, "company1", "company", []⟩, ["Error reading budget CSV"]) ∧
    submit_action ⟨true, "company1", "company", []⟩ "x"
        BudgetUpload.missingAmount =
      (⟨true, "company1", "company", []⟩,
        ["Budget CSV must include Amount column"]) :=
  ⟨(c8_validation _ " " _).1 (by decide),
   (c8_validation _ "x" _).2.1 (by decide) rfl,
   (c8_validation _ "x" _).2.2 (by decide) rfl⟩

/-- C9: authentication succeeds with the stored role exactly when the
username is in the static table with a matching password; a failed login
leaves the session state unchanged and shows the generic error, while a
successful login sets the three session fields. -/
theorem c9_login (u p : String) (s : SessionState) :
    (∀ role, authenticate u p = some role ↔ USERS u = some (p, role)) ∧
    (authenticate u p = none →
      login_action s u p = (s, ["Invalid username or password"])) ∧
    (∀ role, authenticate u p = some role →
      login_action s u p =
        ({ s with logged_in := true, username := u, role := role }, [])) := by
  refine ⟨?_, ?_, ?_⟩
  · intro role
    unfold authenticate
    cases hU : USERS u with
    | none => simp
    | some pr =>
      obtain ⟨pw, r⟩ := pr
      by_cases hpw : pw = p
      · subst hpw
        simp
      · simp [hpw]
  · intro h
    unfold login_action
    rw [h]
  · intro role h
    unfold login_action
    rw [h]

/-- C9 witness: a failed and a successful login on concrete inputs. -/
theorem c9_witness :
    login_action ⟨false, "", "", []⟩ "admin" "wrong" =
      (⟨false, "", "", []⟩, ["Invalid username or password"]) ∧
    login_action ⟨false, "", "", []⟩ "admin" "admin123" =
      (⟨true, "admin", "admin", []⟩, []) :=
  ⟨(c9_login "admin" "wrong" _).2.1 (by decide),
   (c9_login "admin" "admin123" ⟨false, "", "", []⟩).2.2 "admin" (by decide)⟩

/-- Every stored proposal has the 1-based id matching its position, so ids
are strictly increasing along the store. -/
def idsOk (ps : List Proposal) : Prop :=
  ∀ i (h : i < ps.length), (ps.get ⟨i, h⟩).id = i + 1

/-- The proposal dict built by `company_dashboard` on a successful
submission. -/
noncomputable def newProposal (s : SessionState) (text : String)
    (amounts : Budget) : Proposal :=
  { id := s.proposals.length + 1, text := text,
    scores := compute_weighted_score text amounts, user := s.username,
    status := (compute_weighted_score text amounts).status,
    eval_comment := "" }

/-- C10: no modelled action ever removes a proposal: login and logout keep
the store, a submission keeps the existing store as a prefix, a successful
submission appends exactly one record with id equal to the previous length
plus 1, and the position/id invariant (1-based, strictly increasing ids)
is preserved. -/
theorem c10_append_only (s : SessionState) (text : String)
    (budget : BudgetUpload) (u p : String) :
    (login_action s u p).1.proposals = s.proposals ∧
    (logout_action s).proposals = s.proposals ∧
    s.proposals <+: (submit_action s text budget).1.proposals ∧
    (∀ amounts, budget = BudgetUpload.table amounts → stripEmpty text = false →
      (submit_action s text budget).1.proposals =
        s.proposals ++ [newProposal s text amounts]) ∧
    (idsOk s.proposals → idsOk (submit_action s text budget).1.proposals) := by
  have hsub : ∀ amounts, budget = BudgetUpload.table amounts →
      stripEmpty text = false →
      (submit_action s text budget).1.proposals =
        s.proposals ++ [newProposal s text amounts] := by
    intro amounts hb h
    subst hb
    simp [submit_action, newProposal, h]
  have hkeep : (submit_action s text budget).1.proposals = s.proposals ∨
      ∃ amounts, budget = BudgetUpload.table amounts ∧ stripEmpty text = false := by
    by_cases h : stripEmpty text
    · left; simp [submit_action, h]
    · cases budget with
      | unreadable => left; simp [submit_action, h]
      | missingAmount => left; simp [submit_action, h]
      | table amounts => right; exact ⟨amounts, rfl, by simpa using h⟩
  refine ⟨?_, rfl, ?_, hsub, ?_⟩
  · cases hA : authenticate u p <;> simp [login_action, hA]
  · rcases hkeep with h | ⟨amounts, hb, h⟩
    · rw [h]
    · rw [hsub amounts hb h]
      exact List.prefix_append _ _
  · intro hok
    rcases hkeep with h | ⟨amounts, hb, h⟩
    · rw [h]; exact hok
    · rw [hsub amounts hb h]
      intro i hi
      have hlen : i < s.proposals.length + 1 := by
        simpa using hi
      rcases Nat.lt_succ_iff_lt_or_eq.1 hlen with hlt | heq
      · have hval := hok i hlt
        rw [List.get_eq_getElem] at hval ⊢
        rw [List.getElem_append_left hlt]
        exact hval
      · subst heq
        rw [List.get_eq_getElem]
        simp [newProposal]

/-- C10 witness: a concrete successful submission into an empty store
appends the single proposal with id 1 and preserves the id invariant. -/
theorem c10_witness :
    (submit_action ⟨true, "company1", "company", []⟩ "coal"
        (BudgetUpload.table [])).1.proposals =
      [newProposal ⟨true, "company1", "company", []⟩ "coal" []] ∧
    idsOk (submit_action ⟨true, "company1", "company", []⟩ "coal"
        (BudgetUpload.table [])).1.proposals := by
  have h := c10_append_only ⟨true, "company1", "company", []⟩ "coal"
    (BudgetUpload.table []) "" ""
  refine ⟨?_, h.2.2.2.2 ?_⟩
  · have h2 := h.2.2.2.1 [] rfl (by decide)
    simpa using h2
  · intro i hi
    simp at hi
